import Mathlib

/-!
Shallow embedding of the hzgrow-r502 fingerprint-sensor driver
(src/commands.rs, src/responses.rs, src/driver.rs, src/utils.rs).

Bytes are modelled as `Nat` values; machine-integer wraparound is written
explicitly as `% 2^w` where the source relies on it.  Rust code that can
panic (out-of-range slice indexing, unmapped status bytes) is modelled
with `Option`, `none` standing for the panic.
-/

namespace R502

/-- Big-endian bytes of a `u16` value (`u16::to_be_bytes`). -/
def u16BeBytes (n : Nat) : List Nat :=
  [n / 256 % 256, n % 256]

/-- Big-endian bytes of a `u32` value (`u32::to_be_bytes`). -/
def u32BeBytes (n : Nat) : List Nat :=
  [n / 16777216 % 256, n / 65536 % 256, n / 256 % 256, n % 256]

/-- Read a byte at offset `i` (Rust `payload[i]`; the length guard at the caller
models the panic on an out-of-range index). -/
def readU8 (buf : List Nat) (i : Nat) : Nat := buf.getD i 0

/-- Big-endian `u16` at offset `i` (Rust `BigEndian::read_u16(&payload[i..])`). -/
def readU16BE (buf : List Nat) (i : Nat) : Nat :=
  256 * buf.getD i 0 + buf.getD (i + 1) 0

/-- Big-endian `u32` at offset `i` (Rust `BigEndian::read_u32(&payload[i..])`). -/
def readU32BE (buf : List Nat) (i : Nat) : Nat :=
  16777216 * buf.getD i 0 + 65536 * buf.getD (i + 1) 0
    + 256 * buf.getD (i + 2) 0 + buf.getD (i + 3) 0

/-- Rust `enum Command` from src/commands.rs.  Field values are machine integers
carried as `Nat` (`password : u32`, `buffer : u8`, indices `u16`). -/
inductive Command where
  | ReadSysPara
  | VfyPwd (password : Nat)
  | GenImg
  | Img2Tz (buffer : Nat)
  | Search (buffer start_index end_index : Nat)
  | LoadChar (buffer index : Nat)
  | Match
  | TemplateNum
  | RegModel
  | Store (buffer index : Nat)
  | DeletChar (start_index num_to_delete : Nat)
  deriving DecidableEq, Repr

/-- Encoder `Command::to_payload` from src/commands.rs: the byte sequence the encoder
appends after the header/address (packet-type byte, length, opcode,
parameters), in the order of the `write_cmd_bytes` calls in the source. -/
def Command.to_payload : Command → List Nat
  | .ReadSysPara => [0x01] ++ [0x00, 0x03] ++ [0x0F]
  | .VfyPwd password => [0x01] ++ [0x00, 0x07] ++ [0x13] ++ u32BeBytes password
  | .GenImg => [0x01] ++ [0x00, 0x03] ++ [0x01]
  | .Img2Tz buffer => [0x01] ++ [0x00, 0x04] ++ [0x02] ++ [buffer % 256]
  | .Search buffer start_index end_index =>
      [0x01] ++ [0x00, 0x08] ++ [0x04] ++ [buffer % 256]
        ++ u16BeBytes start_index ++ u16BeBytes end_index
  | .LoadChar buffer index =>
      [0x01] ++ [0x00, 0x06] ++ [0x07] ++ [buffer % 256] ++ u16BeBytes index
  | .Match => [0x01] ++ [0x00, 0x03] ++ [0x03]
  | .TemplateNum => [0x01] ++ [0x00, 0x03] ++ [0x1D]
  | .RegModel => [0x01] ++ [0x00, 0x03] ++ [0x05]
  | .Store buffer index =>
      [0x01] ++ [0x00, 0x06] ++ [0x06] ++ [buffer % 256] ++ u16BeBytes index
  | .DeletChar start_index num_to_delete =>
      [0x01] ++ [0x00, 0x07] ++ [0x0c]
        ++ u16BeBytes start_index ++ u16BeBytes num_to_delete

/-- Framer `R502::write_header` from src/driver.rs: magic header then the 4-byte
big-endian device address. -/
def write_header (address : Nat) : List Nat :=
  [0xEF, 0x01] ++ u32BeBytes address

/-- Checksum unit `R502::compute_checksum` from src/driver.rs: sum the buffer bytes from
index 6 to the end into a `u16` accumulator (wraparound at 2^16). -/
def compute_checksum (cmd_buffer : List Nat) : Nat :=
  (cmd_buffer.drop 6).foldl (fun checksum byte => (checksum + byte) % 65536) 0

/-- Packet assembly `R502::prepare_cmd` from src/driver.rs: header + address, the command
payload, then the big-endian checksum over everything from index 6. -/
def prepare_cmd (address : Nat) (cmd : Command) : List Nat :=
  let buf := write_header address ++ cmd.to_payload
  buf ++ u16BeBytes (compute_checksum buf)

/-! ## Reply side (src/responses.rs) -/

/-- Rust `enum PasswordVerificationState`. -/
inductive PasswordVerificationState where
  | Correct
  | Incorrect
  | Error
  deriving DecidableEq, Repr

/-- Mapping `PasswordVerificationState::from` (src/responses.rs): closed mapping;
the `panic!` arm in the source on an unmapped byte is modelled as `none`. -/
def PasswordVerificationState.fromByte (byte : Nat) : Option PasswordVerificationState :=
  match byte with
  | 0x00 => some .Correct
  | 0x13 => some .Incorrect
  | 0x01 => some .Error
  | _ => none

/-- Rust `enum GenImgStatus`. -/
inductive GenImgStatus where
  | Success
  | PacketError
  | FingerNotDetected
  | ImageNotCaptured
  deriving DecidableEq, Repr

/-- Mapping `GenImgStatus::from` (src/responses.rs); `panic!` on an unmapped byte
modelled as `none`. -/
def GenImgStatus.fromByte (byte : Nat) : Option GenImgStatus :=
  match byte with
  | 0x00 => some .Success
  | 0x01 => some .PacketError
  | 0x02 => some .FingerNotDetected
  | 0x03 => some .ImageNotCaptured
  | _ => none

/-- Rust `enum Img2TzStatus`. -/
inductive Img2TzStatus where
  | Success
  | PacketError
  | FingerprintImageDistorted
  | ProcessingFailed
  | InvalidInput
  deriving DecidableEq, Repr

/-- Mapping `Img2TzStatus::from` (src/responses.rs); `panic!` on an unmapped byte
modelled as `none`. -/
def Img2TzStatus.fromByte (byte : Nat) : Option Img2TzStatus :=
  match byte with
  | 0x00 => some .Success
  | 0x01 => some .PacketError
  | 0x06 => some .FingerprintImageDistorted
  | 0x07 => some .ProcessingFailed
  | 0x15 => some .InvalidInput
  | _ => none

/-- Rust `enum SearchStatus`. -/
inductive SearchStatus where
  | Success
  | PacketError
  | NoMatch
  deriving DecidableEq, Repr

/-- Mapping `SearchStatus::from` (src/responses.rs); `panic!` on an unmapped byte
modelled as `none`. -/
def SearchStatus.fromByte (byte : Nat) : Option SearchStatus :=
  match byte with
  | 0x00 => some .Success
  | 0x01 => some .PacketError
  | 0x09 => some .NoMatch
  | _ => none

/-- Rust `enum LoadCharStatus`. -/
inductive LoadCharStatus where
  | Success
  | PacketError
  | LibraryReadError
  | IndexOutOfRange
  deriving DecidableEq, Repr

/-- Mapping `LoadCharStatus::from` (src/responses.rs); `panic!` on an unmapped byte
modelled as `none`. -/
def LoadCharStatus.fromByte (byte : Nat) : Option LoadCharStatus :=
  match byte with
  | 0x00 => some .Success
  | 0x01 => some .PacketError
  | 0x0c => some .LibraryReadError
  | 0x0b => some .IndexOutOfRange
  | _ => none

/-- Rust `enum MatchStatus`. -/
inductive MatchStatus where
  | Success
  | PacketError
  | NoMatch
  deriving DecidableEq, Repr

/-- Mapping `MatchStatus::from` (src/responses.rs); `panic!` on an unmapped byte
modelled as `none`. -/
def MatchStatus.fromByte (byte : Nat) : Option MatchStatus :=
  match byte with
  | 0x00 => some .Success
  | 0x01 => some .PacketError
  | 0x08 => some .NoMatch
  | _ => none

/-- Rust `struct SystemParameters` (src/responses.rs). -/
structure SystemParameters where
  status_register : Nat
  system_identifier_code : Nat
  finger_library_size : Nat
  security_level : Nat
  device_address : Nat
  packet_size : Nat
  baud_setting : Nat
  deriving DecidableEq, Repr

/-- Decoder `SystemParameters::from_payload` (src/responses.rs) over the 16-byte
parameter block.  The `16 ≤ length` guard models the panicking slice
indexing: the widest slice taken is `payload[12..16]`.  Note the source
computes `baud_setting` with `read_u16(&payload[12..16])`, which reads the
first two bytes of that slice, i.e. offsets 12..14 — the same word as
`packet_size`. -/
def SystemParameters.from_payload (payload : List Nat) : Option SystemParameters :=
  if 16 ≤ payload.length then
    some
      { status_register := readU16BE payload 0
        system_identifier_code := readU16BE payload 2
        finger_library_size := readU16BE payload 4
        security_level := readU16BE payload 6
        device_address := readU32BE payload 8
        packet_size := readU16BE payload 12
        baud_setting := readU16BE payload 12 }
  else none

/-- Rust `struct ReadSysParaResult` (src/responses.rs). -/
structure ReadSysParaResult where
  address : Nat
  confirmation_code : Nat
  system_parameters : SystemParameters
  checksum : Nat
  deriving DecidableEq, Repr

/-- Decoder `ReadSysParaResult::from_payload` (src/responses.rs): reads address
`[2..6]`, confirmation byte `[9]`, checksum `[26..28]` and the parameter
block `[10..26]`.  The `28 ≤ length` guard models the panicking slice
indexing (widest read ends at 28). -/
def ReadSysParaResult.from_payload (payload : List Nat) : Option ReadSysParaResult :=
  if 28 ≤ payload.length then
    match SystemParameters.from_payload ((payload.drop 10).take 16) with
    | some sp =>
        some
          { address := readU32BE payload 2
            confirmation_code := readU8 payload 9
            system_parameters := sp
            checksum := readU16BE payload 26 }
    | none => none
  else none

/-- Rust `struct VfyPwdResult` (src/responses.rs). -/
structure VfyPwdResult where
  address : Nat
  confirmation_code : PasswordVerificationState
  checksum : Nat
  deriving DecidableEq, Repr

/-- Decoder `VfyPwdResult::from_payload` (src/responses.rs): address `[2..6]`,
status byte `[9]` through the closed mapping, checksum `[10..12]`; the
`12 ≤ length` guard models the panicking slice indexing. -/
def VfyPwdResult.from_payload (payload : List Nat) : Option VfyPwdResult :=
  if 12 ≤ payload.length then
    match PasswordVerificationState.fromByte (readU8 payload 9) with
    | some c =>
        some
          { address := readU32BE payload 2
            confirmation_code := c
            checksum := readU16BE payload 10 }
    | none => none
  else none

/-- Rust `struct GenImgResult` (src/responses.rs). -/
structure GenImgResult where
  address : Nat
  confirmation_code : GenImgStatus
  checksum : Nat
  deriving DecidableEq, Repr

/-- Decoder `GenImgResult::from_payload` (src/responses.rs): address `[2..6]`,
status byte `[9]`, checksum `[10..12]`. -/
def GenImgResult.from_payload (payload : List Nat) : Option GenImgResult :=
  if 12 ≤ payload.length then
    match GenImgStatus.fromByte (readU8 payload 9) with
    | some c =>
        some
          { address := readU32BE payload 2
            confirmation_code := c
            checksum := readU16BE payload 10 }
    | none => none
  else none

/-- Rust `struct Img2TzResult` (src/responses.rs). -/
structure Img2TzResult where
  address : Nat
  confirmation_code : Img2TzStatus
  checksum : Nat
  deriving DecidableEq, Repr

/-- Decoder `Img2TzResult::from_payload` (src/responses.rs): address `[2..6]`,
status byte `[9]`, checksum `[10..12]`. -/
def Img2TzResult.from_payload (payload : List Nat) : Option Img2TzResult :=
  if 12 ≤ payload.length then
    match Img2TzStatus.fromByte (readU8 payload 9) with
    | some c =>
        some
          { address := readU32BE payload 2
            confirmation_code := c
            checksum := readU16BE payload 10 }
    | none => none
  else none

/-- Rust `struct SearchResult` (src/responses.rs). -/
structure SearchResult where
  address : Nat
  confirmation_code : SearchStatus
  match_id : Nat
  match_score : Nat
  checksum : Nat
  deriving DecidableEq, Repr

/-- Decoder `SearchResult::from_payload` (src/responses.rs): address `[2..6]`,
status byte `[9]`, match_id `[10..12]`, match_score `[12..14]`,
checksum `[14..16]`. -/
def SearchResult.from_payload (payload : List Nat) : Option SearchResult :=
  if 16 ≤ payload.length then
    match SearchStatus.fromByte (readU8 payload 9) with
    | some c =>
        some
          { address := readU32BE payload 2
            confirmation_code := c
            match_id := readU16BE payload 10
            match_score := readU16BE payload 12
            checksum := readU16BE payload 14 }
    | none => none
  else none

/-- Rust `struct LoadCharResult` (src/responses.rs). -/
structure LoadCharResult where
  address : Nat
  confirmation_code : LoadCharStatus
  checksum : Nat
  deriving DecidableEq, Repr

/-- Decoder `LoadCharResult::from_payload` (src/responses.rs): address `[2..6]`,
status byte `[9]`, checksum `[10..12]`. -/
def LoadCharResult.from_payload (payload : List Nat) : Option LoadCharResult :=
  if 12 ≤ payload.length then
    match LoadCharStatus.fromByte (readU8 payload 9) with
    | some c =>
        some
          { address := readU32BE payload 2
            confirmation_code := c
            checksum := readU16BE payload 10 }
    | none => none
  else none

/-- Rust `struct MatchResult` (src/responses.rs). -/
structure MatchResult where
  address : Nat
  confirmation_code : MatchStatus
  match_score : Nat
  checksum : Nat
  deriving DecidableEq, Repr

/-- Decoder `MatchResult::from_payload` (src/responses.rs): address `[2..6]`,
status byte `[9]`, match_score `[10..12]`, checksum `[12..14]`. -/
def MatchResult.from_payload (payload : List Nat) : Option MatchResult :=
  if 14 ≤ payload.length then
    match MatchStatus.fromByte (readU8 payload 9) with
    | some c =>
        some
          { address := readU32BE payload 2
            confirmation_code := c
            match_score := readU16BE payload 10
            checksum := readU16BE payload 12 }
    | none => none
  else none

/-- Modelled from the spec: `TemplateNumResult` is referenced by
`R502::parse_reply` and the driver tests but its definition is missing
from src/; spec §4.3 gives the layout "TemplateNum → confirmation_code:[9],
template_num:[10..12], checksum:[12..14]". -/
structure TemplateNumResult where
  address : Nat
  confirmation_code : Nat
  template_num : Nat
  checksum : Nat
  deriving DecidableEq, Repr

/-- Modelled from the spec: decoder for `TemplateNum` (missing from src/),
following spec §4.3 — address `[2..6]`, confirmation code `[9]`,
template_num `[10..12]`, checksum `[12..14]`. -/
def TemplateNumResult.from_payload (payload : List Nat) : Option TemplateNumResult :=
  if 14 ≤ payload.length then
    some
      { address := readU32BE payload 2
        confirmation_code := readU8 payload 9
        template_num := readU16BE payload 10
        checksum := readU16BE payload 12 }
  else none

/-- Modelled from the spec: `RegModelResult` is referenced by
`R502::parse_reply` but missing from src/; spec §4.3: "RegModel, Store,
DeletChar → confirmation_code:[9], checksum:[10..12] (status-only replies)". -/
structure RegModelResult where
  address : Nat
  confirmation_code : Nat
  checksum : Nat
  deriving DecidableEq, Repr

/-- Modelled from the spec: decoder for `RegModel` (missing from src/),
status-only layout per spec §4.3. -/
def RegModelResult.from_payload (payload : List Nat) : Option RegModelResult :=
  if 12 ≤ payload.length then
    some
      { address := readU32BE payload 2
        confirmation_code := readU8 payload 9
        checksum := readU16BE payload 10 }
  else none

/-- Modelled from the spec: `StoreResult` is referenced by
`R502::parse_reply` but missing from src/; status-only layout per spec §4.3. -/
structure StoreResult where
  address : Nat
  confirmation_code : Nat
  checksum : Nat
  deriving DecidableEq, Repr

/-- Modelled from the spec: decoder for `Store` (missing from src/),
status-only layout per spec §4.3. -/
def StoreResult.from_payload (payload : List Nat) : Option StoreResult :=
  if 12 ≤ payload.length then
    some
      { address := readU32BE payload 2
        confirmation_code := readU8 payload 9
        checksum := readU16BE payload 10 }
  else none

/-- Modelled from the spec: `DeletCharResult` is referenced by
`R502::parse_reply` but missing from src/; status-only layout per spec §4.3. -/
structure DeletCharResult where
  address : Nat
  confirmation_code : Nat
  checksum : Nat
  deriving DecidableEq, Repr

/-- Modelled from the spec: decoder for `DeletChar` (missing from src/),
status-only layout per spec §4.3. -/
def DeletCharResult.from_payload (payload : List Nat) : Option DeletCharResult :=
  if 12 ≤ payload.length then
    some
      { address := readU32BE payload 2
        confirmation_code := readU8 payload 9
        checksum := readU16BE payload 10 }
  else none

/-- Rust `enum Reply` (src/responses.rs), extended with the four variants that
`R502::parse_reply` constructs but whose declarations are missing from
src/ (modelled from the spec, §4.3). -/
inductive Reply where
  | ReadSysPara (r : ReadSysParaResult)
  | VfyPwd (r : VfyPwdResult)
  | GenImg (r : GenImgResult)
  | Img2Tz (r : Img2TzResult)
  | Search (r : SearchResult)
  | LoadChar (r : LoadCharResult)
  | Match (r : MatchResult)
  | TemplateNum (r : TemplateNumResult)
  | RegModel (r : RegModelResult)
  | Store (r : StoreResult)
  | DeletChar (r : DeletCharResult)
  deriving DecidableEq, Repr

/-- Rust `enum Error` (src/utils.rs); the wrapped transport error payloads are
irrelevant to parsing and dropped. -/
inductive Error where
  | WriteError
  | RecvReadError
  | RecvPacketTooShort
  | RecvUnsolicitedReply
  | RecvWrongReplyType
  deriving DecidableEq, Repr

/-- Outcome of `R502::parse_reply`: an `Ok(reply)`, an `Err(error)`, or a
process abort (`panicked`) raised inside a decoder — out-of-range indexing
or an unmapped status byte. -/
inductive ParseResult where
  | ok (r : Reply)
  | err (e : Error)
  | panicked
  deriving DecidableEq, Repr

/-- Lift the `Option` result of a decoder into a `ParseResult`. -/
def ofDecoded {α : Type} (wrap : α → Reply) : Option α → ParseResult
  | some r => .ok (wrap r)
  | none => .panicked

/-- Dispatcher `R502::parse_reply` (src/driver.rs): length check, in-flight check,
packet-type check, then dispatch on the variant of the in-flight command. -/
def parse_reply (inflight : Option Command) (received : List Nat) : ParseResult :=
  if received.length < 7 then
    .err .RecvPacketTooShort
  else
    match inflight with
    | none => .err .RecvUnsolicitedReply
    | some cmd =>
      if readU8 received 6 ≠ 0x07 then
        .err .RecvWrongReplyType
      else
        match cmd with
        | .ReadSysPara => ofDecoded .ReadSysPara (ReadSysParaResult.from_payload received)
        | .VfyPwd _ => ofDecoded .VfyPwd (VfyPwdResult.from_payload received)
        | .GenImg => ofDecoded .GenImg (GenImgResult.from_payload received)
        | .Img2Tz _ => ofDecoded .Img2Tz (Img2TzResult.from_payload received)
        | .Search _ _ _ => ofDecoded .Search (SearchResult.from_payload received)
        | .LoadChar _ _ => ofDecoded .LoadChar (LoadCharResult.from_payload received)
        | .Match => ofDecoded .Match (MatchResult.from_payload received)
        | .TemplateNum => ofDecoded .TemplateNum (TemplateNumResult.from_payload received)
        | .RegModel => ofDecoded .RegModel (RegModelResult.from_payload received)
        | .Store _ _ => ofDecoded .Store (StoreResult.from_payload received)
        | .DeletChar _ _ => ofDecoded .DeletChar (DeletCharResult.from_payload received)

/-! ## Derived notions used to state the properties -/

/-- Minimum received length each dispatched decoder requires (the highest
offset it reads, per the layouts in src/responses.rs and, for the four
decoders missing from src/, spec §4.3).  The trailing two bytes
`[len-2 .. len]` are the checksum field of that kind. -/
def replyLayoutLen : Command → Nat
  | .ReadSysPara => 28
  | .VfyPwd _ => 12
  | .GenImg => 12
  | .Img2Tz _ => 12
  | .Search _ _ _ => 16
  | .LoadChar _ _ => 12
  | .Match => 14
  | .TemplateNum => 14
  | .RegModel => 12
  | .Store _ _ => 12
  | .DeletChar _ _ => 12

/-- Whether the status byte at offset 9 lies in the closed mapping of the
reply kind of the in-flight command (always true for kinds whose confirmation
code is kept as a raw byte). -/
def statusOk (cmd : Command) (received : List Nat) : Bool :=
  match cmd with
  | .VfyPwd _ => (PasswordVerificationState.fromByte (readU8 received 9)).isSome
  | .GenImg => (GenImgStatus.fromByte (readU8 received 9)).isSome
  | .Img2Tz _ => (Img2TzStatus.fromByte (readU8 received 9)).isSome
  | .Search _ _ _ => (SearchStatus.fromByte (readU8 received 9)).isSome
  | .LoadChar _ _ => (LoadCharStatus.fromByte (readU8 received 9)).isSome
  | .Match => (MatchStatus.fromByte (readU8 received 9)).isSome
  | _ => true

/-- Variant tag of a command (0..10, in declaration order). -/
def cmdTag : Command → Nat
  | .ReadSysPara => 0
  | .VfyPwd _ => 1
  | .GenImg => 2
  | .Img2Tz _ => 3
  | .Search _ _ _ => 4
  | .LoadChar _ _ => 5
  | .Match => 6
  | .TemplateNum => 7
  | .RegModel => 8
  | .Store _ _ => 9
  | .DeletChar _ _ => 10

/-- Variant tag of a reply, numbered to match `cmdTag`. -/
def replyTag : Reply → Nat
  | .ReadSysPara _ => 0
  | .VfyPwd _ => 1
  | .GenImg _ => 2
  | .Img2Tz _ => 3
  | .Search _ => 4
  | .LoadChar _ => 5
  | .Match _ => 6
  | .TemplateNum _ => 7
  | .RegModel _ => 8
  | .Store _ => 9
  | .DeletChar _ => 10

/-- The verbatim-copied checksum field of a reply. -/
def replyChecksum : Reply → Nat
  | .ReadSysPara r => r.checksum
  | .VfyPwd r => r.checksum
  | .GenImg r => r.checksum
  | .Img2Tz r => r.checksum
  | .Search r => r.checksum
  | .LoadChar r => r.checksum
  | .Match r => r.checksum
  | .TemplateNum r => r.checksum
  | .RegModel r => r.checksum
  | .Store r => r.checksum
  | .DeletChar r => r.checksum

/-- Two replies are of the same variant and agree on every field except
the checksum field. -/
def eqExceptChecksum : Reply → Reply → Bool
  | .ReadSysPara a, .ReadSysPara b =>
      a.address = b.address ∧ a.confirmation_code = b.confirmation_code
        ∧ a.system_parameters = b.system_parameters
  | .VfyPwd a, .VfyPwd b =>
      a.address = b.address ∧ a.confirmation_code = b.confirmation_code
  | .GenImg a, .GenImg b =>
      a.address = b.address ∧ a.confirmation_code = b.confirmation_code
  | .Img2Tz a, .Img2Tz b =>
      a.address = b.address ∧ a.confirmation_code = b.confirmation_code
  | .Search a, .Search b =>
      a.address = b.address ∧ a.confirmation_code = b.confirmation_code
        ∧ a.match_id = b.match_id ∧ a.match_score = b.match_score
  | .LoadChar a, .LoadChar b =>
      a.address = b.address ∧ a.confirmation_code = b.confirmation_code
  | .Match a, .Match b =>
      a.address = b.address ∧ a.confirmation_code = b.confirmation_code
        ∧ a.match_score = b.match_score
  | .TemplateNum a, .TemplateNum b =>
      a.address = b.address ∧ a.confirmation_code = b.confirmation_code
        ∧ a.template_num = b.template_num
  | .RegModel a, .RegModel b =>
      a.address = b.address ∧ a.confirmation_code = b.confirmation_code
  | .Store a, .Store b =>
      a.address = b.address ∧ a.confirmation_code = b.confirmation_code
  | .DeletChar a, .DeletChar b =>
      a.address = b.address ∧ a.confirmation_code = b.confirmation_code
  | _, _ => false



/-- Test whether the parse outcome is `Ok` of a reply whose variant tag
is `t`. -/
def ParseResult.isOkWithTag : ParseResult → Nat → Bool
  | .ok r, t => replyTag r = t
  | _, _ => false

theorem ofDecoded_ne_err {α : Type} (wrap : α → Reply) (o : Option α) (e : Error) :
    ofDecoded wrap o ≠ .err e := by
  cases o <;> simp [ofDecoded]

theorem ofDecoded_ok_or_panicked {α : Type} (wrap : α → Reply) (o : Option α) :
    ofDecoded wrap o = .panicked ∨ ∃ r, ofDecoded wrap o = .ok r := by
  cases o with
  | none => exact Or.inl rfl
  | some r => exact Or.inr ⟨wrap r, rfl⟩

theorem parse_reply_decode_branch (c : Command) (received : List Nat)
    (h1 : ¬ received.length < 7) (h2 : readU8 received 6 = 0x07) :
    parse_reply (some c) received = .panicked
      ∨ ∃ r, parse_reply (some c) received = .ok r := by
  simp only [parse_reply, if_neg h1, h2, ne_eq, not_true_eq_false, if_false]
  cases c <;> exact ofDecoded_ok_or_panicked _ _

/-- C1: reply parsing performs its checks in this exact order: it fails with
`RecvPacketTooShort` iff fewer than 7 bytes were received; otherwise with
`RecvUnsolicitedReply` iff no command is in flight; otherwise with
`RecvWrongReplyType` iff byte 6 is not 0x07; otherwise it proceeds to decode
(its outcome is an `ok` reply or a decoder abort, never one of the three
dispatch errors). -/
theorem parse_reply_check_order (received : List Nat) (inflight : Option Command) :
    (parse_reply inflight received = .err .RecvPacketTooShort ↔ received.length < 7)
    ∧ (parse_reply inflight received = .err .RecvUnsolicitedReply
        ↔ 7 ≤ received.length ∧ inflight = none)
    ∧ (parse_reply inflight received = .err .RecvWrongReplyType
        ↔ 7 ≤ received.length ∧ inflight ≠ none ∧ readU8 received 6 ≠ 0x07)
    ∧ ((parse_reply inflight received = .panicked
          ∨ ∃ r, parse_reply inflight received = .ok r)
        ↔ 7 ≤ received.length ∧ inflight ≠ none ∧ readU8 received 6 = 0x07) := by
  by_cases h1 : received.length < 7
  · have hp : parse_reply inflight received = .err .RecvPacketTooShort := by
      simp [parse_reply, h1]
    refine ⟨by simp [hp, h1], by simp [hp]; omega, by simp [hp]; omega, by simp [hp]; omega⟩
  · cases inflight with
    | none =>
      have hp : parse_reply none received = .err .RecvUnsolicitedReply := by
        simp [parse_reply, h1]
      refine ⟨by simp [hp] <;> omega, by simp [hp] <;> omega, by simp [hp] <;> omega,
        by simp [hp] <;> omega⟩
    | some c =>
      by_cases h2 : readU8 received 6 = 0x07
      · have hd := parse_reply_decode_branch c received h1 h2
        have hne : ∀ e, parse_reply (some c) received ≠ .err e := by
          intro e
          rcases hd with h | ⟨r, h⟩ <;> simp [h]
        refine ⟨by simp [hne] <;> omega, by simp [hne] <;> omega,
          by simp [hne, h2] <;> omega, ?_⟩
        simp [hd, h2]
        omega
      · have hp : parse_reply (some c) received = .err .RecvWrongReplyType := by
          simp [parse_reply, h1, h2]
        refine ⟨by simp [hp] <;> omega, by simp [hp] <;> omega,
          by simp [hp, h2] <;> omega, by simp [hp, h2] <;> omega⟩


/-! Per-kind decoder success lemmas, used for dispatch and the checksum
hyperproperty. -/

theorem readSysParaResult_from_payload_eq (payload : List Nat) (h : 28 ≤ payload.length) :
    ReadSysParaResult.from_payload payload =
      some { address := readU32BE payload 2
             confirmation_code := readU8 payload 9
             system_parameters :=
               { status_register := readU16BE ((payload.drop 10).take 16) 0
                 system_identifier_code := readU16BE ((payload.drop 10).take 16) 2
                 finger_library_size := readU16BE ((payload.drop 10).take 16) 4
                 security_level := readU16BE ((payload.drop 10).take 16) 6
                 device_address := readU32BE ((payload.drop 10).take 16) 8
                 packet_size := readU16BE ((payload.drop 10).take 16) 12
                 baud_setting := readU16BE ((payload.drop 10).take 16) 12 }
             checksum := readU16BE payload 26 } := by
  have hb : 16 ≤ ((payload.drop 10).take 16).length := by
    simp [List.length_take, List.length_drop]
    omega
  rw [ReadSysParaResult.from_payload, if_pos h, SystemParameters.from_payload, if_pos hb]

theorem vfyPwdResult_from_payload_eq (payload : List Nat) (h : 12 ≤ payload.length)
    {c : PasswordVerificationState}
    (hc : PasswordVerificationState.fromByte (readU8 payload 9) = some c) :
    VfyPwdResult.from_payload payload =
      some { address := readU32BE payload 2
             confirmation_code := c
             checksum := readU16BE payload 10 } := by
  rw [VfyPwdResult.from_payload, if_pos h, hc]

theorem genImgResult_from_payload_eq (payload : List Nat) (h : 12 ≤ payload.length)
    {c : GenImgStatus} (hc : GenImgStatus.fromByte (readU8 payload 9) = some c) :
    GenImgResult.from_payload payload =
      some { address := readU32BE payload 2
             confirmation_code := c
             checksum := readU16BE payload 10 } := by
  rw [GenImgResult.from_payload, if_pos h, hc]

theorem img2TzResult_from_payload_eq (payload : List Nat) (h : 12 ≤ payload.length)
    {c : Img2TzStatus} (hc : Img2TzStatus.fromByte (readU8 payload 9) = some c) :
    Img2TzResult.from_payload payload =
      some { address := readU32BE payload 2
             confirmation_code := c
             checksum := readU16BE payload 10 } := by
  rw [Img2TzResult.from_payload, if_pos h, hc]

theorem searchResult_from_payload_eq (payload : List Nat) (h : 16 ≤ payload.length)
    {c : SearchStatus} (hc : SearchStatus.fromByte (readU8 payload 9) = some c) :
    SearchResult.from_payload payload =
      some { address := readU32BE payload 2
             confirmation_code := c
             match_id := readU16BE payload 10
             match_score := readU16BE payload 12
             checksum := readU16BE payload 14 } := by
  rw [SearchResult.from_payload, if_pos h, hc]

theorem loadCharResult_from_payload_eq (payload : List Nat) (h : 12 ≤ payload.length)
    {c : LoadCharStatus} (hc : LoadCharStatus.fromByte (readU8 payload 9) = some c) :
    LoadCharResult.from_payload payload =
      some { address := readU32BE payload 2
             confirmation_code := c
             checksum := readU16BE payload 10 } := by
  rw [LoadCharResult.from_payload, if_pos h, hc]

theorem matchResult_from_payload_eq (payload : List Nat) (h : 14 ≤ payload.length)
    {c : MatchStatus} (hc : MatchStatus.fromByte (readU8 payload 9) = some c) :
    MatchResult.from_payload payload =
      some { address := readU32BE payload 2
             confirmation_code := c
             match_score := readU16BE payload 10
             checksum := readU16BE payload 12 } := by
  rw [MatchResult.from_payload, if_pos h, hc]

theorem templateNumResult_from_payload_eq (payload : List Nat) (h : 14 ≤ payload.length) :
    TemplateNumResult.from_payload payload =
      some { address := readU32BE payload 2
             confirmation_code := readU8 payload 9
             template_num := readU16BE payload 10
             checksum := readU16BE payload 12 } := by
  rw [TemplateNumResult.from_payload, if_pos h]

theorem regModelResult_from_payload_eq (payload : List Nat) (h : 12 ≤ payload.length) :
    RegModelResult.from_payload payload =
      some { address := readU32BE payload 2
             confirmation_code := readU8 payload 9
             checksum := readU16BE payload 10 } := by
  rw [RegModelResult.from_payload, if_pos h]

theorem storeResult_from_payload_eq (payload : List Nat) (h : 12 ≤ payload.length) :
    StoreResult.from_payload payload =
      some { address := readU32BE payload 2
             confirmation_code := readU8 payload 9
             checksum := readU16BE payload 10 } := by
  rw [StoreResult.from_payload, if_pos h]

theorem deletCharResult_from_payload_eq (payload : List Nat) (h : 12 ≤ payload.length) :
    DeletCharResult.from_payload payload =
      some { address := readU32BE payload 2
             confirmation_code := readU8 payload 9
             checksum := readU16BE payload 10 } := by
  rw [DeletCharResult.from_payload, if_pos h]

/-- C2 counterexample: with `VfyPwd` in flight and the 12-byte buffer
`EF 01 FF FF FF FF 07 00 03 42 00 0A` — at least 7 bytes, byte 6 = 0x07,
and length 12 sufficient for the VfyPwd layout — decoding does not return
the VfyPwd `Reply` variant (or any reply): the unmapped status byte `0x42`
hits the `panic!` arm of `PasswordVerificationState::from`. -/
theorem parse_reply_dispatch_cex :
    (replyLayoutLen (Command.VfyPwd 0) ≤
        ([0xEF, 0x01, 0xFF, 0xFF, 0xFF, 0xFF, 0x07, 0x00, 0x03, 0x42, 0x00, 0x0A] : List Nat).length
      ∧ readU8 [0xEF, 0x01, 0xFF, 0xFF, 0xFF, 0xFF, 0x07, 0x00, 0x03, 0x42, 0x00, 0x0A] 6 = 0x07)
    ∧ (parse_reply (some (Command.VfyPwd 0))
          [0xEF, 0x01, 0xFF, 0xFF, 0xFF, 0xFF, 0x07, 0x00, 0x03, 0x42, 0x00, 0x0A]).isOkWithTag
        (cmdTag (Command.VfyPwd 0)) = false
    ∧ parse_reply (some (Command.VfyPwd 0))
        [0xEF, 0x01, 0xFF, 0xFF, 0xFF, 0xFF, 0x07, 0x00, 0x03, 0x42, 0x00, 0x0A]
        = ParseResult.panicked := by
  decide

/-- C2 (amended): for every command whose reply buffer passes the dispatch
checks, has the layout length of its kind, and carries a status byte inside the
closed status mapping of the kind, parsing returns the `Reply` variant whose tag
matches the variant tag of the command. -/
theorem parse_reply_dispatch_tag (cmd : Command) (received : List Nat)
    (hlen : replyLayoutLen cmd ≤ received.length)
    (htype : readU8 received 6 = 0x07)
    (hstatus : statusOk cmd received = true) :
    ∃ r, parse_reply (some cmd) received = ParseResult.ok r ∧ replyTag r = cmdTag cmd := by
  cases cmd with
  | ReadSysPara =>
    simp only [replyLayoutLen] at hlen
    have h7 : ¬ received.length < 7 := by omega
    refine ⟨Reply.ReadSysPara _, by simp [parse_reply, h7, htype,
      readSysParaResult_from_payload_eq received hlen, ofDecoded] <;> rfl, rfl⟩
  | VfyPwd password =>
    simp only [replyLayoutLen] at hlen
    have h7 : ¬ received.length < 7 := by omega
    simp only [statusOk, Option.isSome_iff_exists] at hstatus
    obtain ⟨c, hc⟩ := hstatus
    refine ⟨Reply.VfyPwd _, by simp [parse_reply, h7, htype,
      vfyPwdResult_from_payload_eq received hlen hc, ofDecoded] <;> rfl, rfl⟩
  | GenImg =>
    simp only [replyLayoutLen] at hlen
    have h7 : ¬ received.length < 7 := by omega
    simp only [statusOk, Option.isSome_iff_exists] at hstatus
    obtain ⟨c, hc⟩ := hstatus
    refine ⟨Reply.GenImg _, by simp [parse_reply, h7, htype,
      genImgResult_from_payload_eq received hlen hc, ofDecoded] <;> rfl, rfl⟩
  | Img2Tz buffer =>
    simp only [replyLayoutLen] at hlen
    have h7 : ¬ received.length < 7 := by omega
    simp only [statusOk, Option.isSome_iff_exists] at hstatus
    obtain ⟨c, hc⟩ := hstatus
    refine ⟨Reply.Img2Tz _, by simp [parse_reply, h7, htype,
      img2TzResult_from_payload_eq received hlen hc, ofDecoded] <;> rfl, rfl⟩
  | Search buffer start_index end_index =>
    simp only [replyLayoutLen] at hlen
    have h7 : ¬ received.length < 7 := by omega
    simp only [statusOk, Option.isSome_iff_exists] at hstatus
    obtain ⟨c, hc⟩ := hstatus
    refine ⟨Reply.Search _, by simp [parse_reply, h7, htype,
      searchResult_from_payload_eq received hlen hc, ofDecoded] <;> rfl, rfl⟩
  | LoadChar buffer index =>
    simp only [replyLayoutLen] at hlen
    have h7 : ¬ received.length < 7 := by omega
    simp only [statusOk, Option.isSome_iff_exists] at hstatus
    obtain ⟨c, hc⟩ := hstatus
    refine ⟨Reply.LoadChar _, by simp [parse_reply, h7, htype,
      loadCharResult_from_payload_eq received hlen hc, ofDecoded] <;> rfl, rfl⟩
  | Match =>
    simp only [replyLayoutLen] at hlen
    have h7 : ¬ received.length < 7 := by omega
    simp only [statusOk, Option.isSome_iff_exists] at hstatus
    obtain ⟨c, hc⟩ := hstatus
    refine ⟨Reply.Match _, by simp [parse_reply, h7, htype,
      matchResult_from_payload_eq received hlen hc, ofDecoded] <;> rfl, rfl⟩
  | TemplateNum =>
    simp only [replyLayoutLen] at hlen
    have h7 : ¬ received.length < 7 := by omega
    refine ⟨Reply.TemplateNum _, by simp [parse_reply, h7, htype,
      templateNumResult_from_payload_eq received hlen, ofDecoded] <;> rfl, rfl⟩
  | RegModel =>
    simp only [replyLayoutLen] at hlen
    have h7 : ¬ received.length < 7 := by omega
    refine ⟨Reply.RegModel _, by simp [parse_reply, h7, htype,
      regModelResult_from_payload_eq received hlen, ofDecoded] <;> rfl, rfl⟩
  | Store buffer index =>
    simp only [replyLayoutLen] at hlen
    have h7 : ¬ received.length < 7 := by omega
    refine ⟨Reply.Store _, by simp [parse_reply, h7, htype,
      storeResult_from_payload_eq received hlen, ofDecoded] <;> rfl, rfl⟩
  | DeletChar start_index num_to_delete =>
    simp only [replyLayoutLen] at hlen
    have h7 : ¬ received.length < 7 := by omega
    refine ⟨Reply.DeletChar _, by simp [parse_reply, h7, htype,
      deletCharResult_from_payload_eq received hlen, ofDecoded] <;> rfl, rfl⟩

/-- Witness for the C2 theorem at a concrete input: the 12-byte VfyPwd
success reply from the driver tests. -/
theorem parse_reply_dispatch_tag_witness :
    ∃ r, parse_reply (some (Command.VfyPwd 0))
        [0xEF, 0x01, 0xFF, 0xFF, 0xFF, 0xFF, 0x07, 0x00, 0x03, 0x00, 0x00, 0x0A]
        = ParseResult.ok r
      ∧ replyTag r = cmdTag (Command.VfyPwd 0) :=
  parse_reply_dispatch_tag (Command.VfyPwd 0)
    [0xEF, 0x01, 0xFF, 0xFF, 0xFF, 0xFF, 0x07, 0x00, 0x03, 0x00, 0x00, 0x0A]
    (by decide) (by decide) (by decide)


/-- C3 (code evaluation): the VfyPwd confirmation mapping decodes
0x00 to Correct, 0x01 to Error and 0x13 to Incorrect, but an unmapped
byte such as 0x02 hits the `panic!` arm of
`PasswordVerificationState::from` (modelled `none`) instead of producing
an `UnknownStatusCode(byte)` decode failure — no such variant exists in
the `Error` type of the source. -/
theorem vfy_pwd_status_mapping_eval :
    PasswordVerificationState.fromByte 0x00 = some PasswordVerificationState.Correct
    ∧ PasswordVerificationState.fromByte 0x01 = some PasswordVerificationState.Error
    ∧ PasswordVerificationState.fromByte 0x13 = some PasswordVerificationState.Incorrect
    ∧ PasswordVerificationState.fromByte 0x02 = none := by
  decide

/-- C4 (code evaluation): on the 16-byte system-parameters block
`00 00 00 00 00 C8 00 03 FF FF FF FF 00 02 00 06`, whose big-endian words
at [12..14] and [14..16] differ (2 vs 6), the source decodes
`baud_setting = 2`, equal to `packet_size`, because
`read_u16(&payload[12..16])` reads the word at offsets 12..14 — not the
word 6 at [14..16] that the spec layout assigns to `baud_setting`. -/
theorem baud_setting_offset_eval :
    (SystemParameters.from_payload
        [0x00, 0x00, 0x00, 0x00, 0x00, 0xC8, 0x00, 0x03,
         0xFF, 0xFF, 0xFF, 0xFF, 0x00, 0x02, 0x00, 0x06]).map
        (fun sp => (sp.packet_size, sp.baud_setting)) = some (2, 2)
    ∧ readU16BE
        [0x00, 0x00, 0x00, 0x00, 0x00, 0xC8, 0x00, 0x03,
         0xFF, 0xFF, 0xFF, 0xFF, 0x00, 0x02, 0x00, 0x06] 14 = 6 := by
  decide

/-- C5: encoding `ReadSysPara` at address 0xFFFFFFFF yields exactly the
12-byte packet EF 01 FF FF FF FF 01 00 03 0F 00 13, and encoding
`VfyPwd{password: 0}` yields a 16-byte packet whose last seven bytes are
13 00 00 00 00 00 1B. -/
theorem encode_concrete_packets :
    prepare_cmd 0xFFFFFFFF Command.ReadSysPara
        = [0xEF, 0x01, 0xFF, 0xFF, 0xFF, 0xFF, 0x01, 0x00, 0x03, 0x0F, 0x00, 0x13]
    ∧ (prepare_cmd 0xFFFFFFFF (Command.VfyPwd 0)).length = 16
    ∧ (prepare_cmd 0xFFFFFFFF (Command.VfyPwd 0)).drop 9
        = [0x13, 0x00, 0x00, 0x00, 0x00, 0x00, 0x1B] := by
  decide

theorem foldl_mod_sum (l : List Nat) (a : Nat) :
    l.foldl (fun checksum byte => (checksum + byte) % 65536) (a % 65536)
      = (a + l.sum) % 65536 := by
  induction l generalizing a with
  | nil => simp
  | cons x xs ih =>
    simp only [List.foldl_cons, List.sum_cons]
    rw [Nat.mod_add_mod, ih (a + x), Nat.add_assoc]

/-- C6: the checksum unit computes the sum, modulo 2^16 with no further
carry folding, of every buffer byte from index 6 through the end; on the
buffer EF 01 FF FF FF FF C0 C1 it returns 0x0181. -/
theorem compute_checksum_spec :
    (∀ cmd_buffer : List Nat,
        compute_checksum cmd_buffer = (cmd_buffer.drop 6).sum % 65536)
    ∧ compute_checksum [0xEF, 0x01, 0xFF, 0xFF, 0xFF, 0xFF, 0xC0, 0xC1] = 0x0181 := by
  refine ⟨fun cmd_buffer => ?_, by decide⟩
  have h := foldl_mod_sum (cmd_buffer.drop 6) 0
  simpa [compute_checksum] using h

/-- C7: with `ReadSysPara` in flight, the 28-byte receive buffer from the
driver test decodes successfully to a `ReadSysPara` reply with address
0xFFFFFFFF and `finger_library_size = 200`. -/
theorem decode_read_sys_para_concrete :
    ∃ r, parse_reply (some Command.ReadSysPara)
        [0xEF, 0x01, 0xFF, 0xFF, 0xFF, 0xFF, 0x07, 0x00, 0x13, 0x00, 0x00, 0x00,
         0x00, 0x00, 0x00, 0xC8, 0x00, 0x03, 0xFF, 0xFF, 0xFF, 0xFF, 0x00, 0x02,
         0x00, 0x06, 0x04, 0xE9] = ParseResult.ok (Reply.ReadSysPara r)
      ∧ r.address = 0xFFFFFFFF
      ∧ r.system_parameters.finger_library_size = 200 :=
  ⟨{ address := 0xFFFFFFFF
     confirmation_code := 0
     system_parameters :=
       { status_register := 0
         system_identifier_code := 0
         finger_library_size := 200
         security_level := 3
         device_address := 0xFFFFFFFF
         packet_size := 2
         baud_setting := 2 }
     checksum := 0x04E9 },
   by decide, rfl, rfl⟩

/-- C9: for every encodable command and any address, the assembled packet
is at most 17 bytes long — within the 128-byte transmit capacity, so the
capacity assertion in `write_cmd_bytes` cannot fail — and the 17-byte
bound is attained by `Search`. -/
theorem packet_fits_buffer :
    (∀ (address : Nat) (cmd : Command),
        (prepare_cmd address cmd).length ≤ 17 ∧ (prepare_cmd address cmd).length ≤ 128)
    ∧ (prepare_cmd 0xFFFFFFFF (Command.Search 1 0 0xFFFF)).length = 17 := by
  refine ⟨fun address cmd => ?_, by decide⟩
  cases cmd <;>
    simp [prepare_cmd, write_header, Command.to_payload, u16BeBytes, u32BeBytes]

/-- C10: the 7-byte buffer EF 01 FF FF FF FF 07 passes all three dispatch
checks with `ReadSysPara` in flight (length ≥ 7, a command in flight,
byte 6 = 0x07), yet the dispatched decoder reads offsets up to 27 and the
parse aborts by indexing past the end of the buffer (`panicked`) instead
of returning a decode error. -/
theorem no_bounds_check_beyond_seven :
    ((7:Nat) ≤ ([0xEF, 0x01, 0xFF, 0xFF, 0xFF, 0xFF, 0x07] : List Nat).length
      ∧ readU8 [0xEF, 0x01, 0xFF, 0xFF, 0xFF, 0xFF, 0x07] 6 = 0x07
      ∧ (some Command.ReadSysPara).isSome = true)
    ∧ parse_reply (some Command.ReadSysPara) [0xEF, 0x01, 0xFF, 0xFF, 0xFF, 0xFF, 0x07]
        = ParseResult.panicked := by
  decide


/-! Congruence of the byte readers under agreement on an index range,
used for the checksum-independence property. -/

theorem readU8_congr {b1 b2 : List Nat} {n : Nat}
    (h : ∀ j, j < n → b1.getD j 0 = b2.getD j 0) {i : Nat} (hi : i < n) :
    readU8 b1 i = readU8 b2 i :=
  h i hi

theorem readU16BE_congr {b1 b2 : List Nat} {n : Nat}
    (h : ∀ j, j < n → b1.getD j 0 = b2.getD j 0) {i : Nat} (hi : i + 1 < n) :
    readU16BE b1 i = readU16BE b2 i := by
  unfold readU16BE
  rw [h i (by omega), h (i+1) (by omega)]

theorem readU32BE_congr {b1 b2 : List Nat} {n : Nat}
    (h : ∀ j, j < n → b1.getD j 0 = b2.getD j 0) {i : Nat} (hi : i + 3 < n) :
    readU32BE b1 i = readU32BE b2 i := by
  unfold readU32BE
  rw [h i (by omega), h (i+1) (by omega), h (i+2) (by omega), h (i+3) (by omega)]

theorem block_getD (l : List Nat) (i : Nat) (h : i < 16) :
    ((l.drop 10).take 16).getD i 0 = l.getD (10+i) 0 := by
  simp [List.getD_eq_getElem?_getD, List.getElem?_take, List.getElem?_drop, h]

/-- C8 counterexample: with `Match` in flight, the 14-byte buffer
`EF 01 FF FF FF FF 07 00 05 42 00 32 00 3E` passes all three dispatch
checks, and the pair (b1, b2) with b1 = b2 this buffer is trivially
identical except in its trailing two checksum bytes — yet decoding does
not succeed: the unmapped status byte 0x42 aborts, refuting "decoding
succeeds on both". -/
theorem checksum_never_verified_cex :
    ((7:Nat) ≤ ([0xEF, 0x01, 0xFF, 0xFF, 0xFF, 0xFF, 0x07, 0x00, 0x05, 0x42,
        0x00, 0x32, 0x00, 0x3E] : List Nat).length
      ∧ readU8 [0xEF, 0x01, 0xFF, 0xFF, 0xFF, 0xFF, 0x07, 0x00, 0x05, 0x42,
          0x00, 0x32, 0x00, 0x3E] 6 = 0x07)
    ∧ parse_reply (some Command.Match)
        [0xEF, 0x01, 0xFF, 0xFF, 0xFF, 0xFF, 0x07, 0x00, 0x05, 0x42, 0x00, 0x32, 0x00, 0x3E]
        = ParseResult.panicked := by
  decide

/-- C8 (amended): reply decoding never verifies the inbound checksum.  For
every in-flight command and every two receive buffers of the layout length of the kind that agree everywhere except (possibly) their trailing two checksum
bytes, pass the packet-type check, and carry a mapped status byte,
decoding succeeds on both and produces replies identical in every field
except the checksum field, which verbatim-copies the trailing two bytes of each buffer; no checksum-mismatch error exists in the error type. -/
theorem checksum_never_verified (cmd : Command) (b1 b2 : List Nat)
    (hl1 : b1.length = replyLayoutLen cmd)
    (hl2 : b2.length = replyLayoutLen cmd)
    (hagree : ∀ i, i < replyLayoutLen cmd - 2 → b1.getD i 0 = b2.getD i 0)
    (htype : readU8 b1 6 = 0x07)
    (hstatus : statusOk cmd b1 = true) :
    ∃ r1 r2, parse_reply (some cmd) b1 = ParseResult.ok r1
      ∧ parse_reply (some cmd) b2 = ParseResult.ok r2
      ∧ eqExceptChecksum r1 r2 = true
      ∧ replyChecksum r1 = readU16BE b1 (replyLayoutLen cmd - 2)
      ∧ replyChecksum r2 = readU16BE b2 (replyLayoutLen cmd - 2) := by
  cases cmd with
  | ReadSysPara =>
    simp only [replyLayoutLen] at hl1 hl2 hagree ⊢
    have h7a : ¬ b1.length < 7 := by omega
    have h7b : ¬ b2.length < 7 := by omega
    have htype2 : readU8 b2 6 = 0x07 := (readU8_congr hagree (by omega)).symm.trans htype
    have haddr : readU32BE b1 2 = readU32BE b2 2 := readU32BE_congr hagree (by omega)
    have hblock : ∀ j, j < 16 →
        ((b1.drop 10).take 16).getD j 0 = ((b2.drop 10).take 16).getD j 0 := by
      intro j hj
      rw [block_getD _ _ hj, block_getD _ _ hj]
      exact hagree (10+j) (by omega)
    have hconf : readU8 b1 9 = readU8 b2 9 := readU8_congr hagree (by omega)
    have hf0 : readU16BE ((b1.drop 10).take 16) 0 = readU16BE ((b2.drop 10).take 16) 0 :=
      readU16BE_congr hblock (by omega)
    have hf2 : readU16BE ((b1.drop 10).take 16) 2 = readU16BE ((b2.drop 10).take 16) 2 :=
      readU16BE_congr hblock (by omega)
    have hf4 : readU16BE ((b1.drop 10).take 16) 4 = readU16BE ((b2.drop 10).take 16) 4 :=
      readU16BE_congr hblock (by omega)
    have hf6 : readU16BE ((b1.drop 10).take 16) 6 = readU16BE ((b2.drop 10).take 16) 6 :=
      readU16BE_congr hblock (by omega)
    have hf8 : readU32BE ((b1.drop 10).take 16) 8 = readU32BE ((b2.drop 10).take 16) 8 :=
      readU32BE_congr hblock (by omega)
    have hf12 : readU16BE ((b1.drop 10).take 16) 12 = readU16BE ((b2.drop 10).take 16) 12 :=
      readU16BE_congr hblock (by omega)
    have hp1 : parse_reply (some (Command.ReadSysPara)) b1
        = ParseResult.ok (Reply.ReadSysPara
          { address := readU32BE b1 2, confirmation_code := readU8 b1 9,
            system_parameters :=
              { status_register := readU16BE ((b1.drop 10).take 16) 0,
                system_identifier_code := readU16BE ((b1.drop 10).take 16) 2,
                finger_library_size := readU16BE ((b1.drop 10).take 16) 4,
                security_level := readU16BE ((b1.drop 10).take 16) 6,
                device_address := readU32BE ((b1.drop 10).take 16) 8,
                packet_size := readU16BE ((b1.drop 10).take 16) 12,
                baud_setting := readU16BE ((b1.drop 10).take 16) 12 },
            checksum := readU16BE b1 26 }) := by
      simp [parse_reply, h7a, htype, readSysParaResult_from_payload_eq b1 (by omega), ofDecoded]
    have hp2 : parse_reply (some (Command.ReadSysPara)) b2
        = ParseResult.ok (Reply.ReadSysPara
          { address := readU32BE b2 2, confirmation_code := readU8 b2 9,
            system_parameters :=
              { status_register := readU16BE ((b2.drop 10).take 16) 0,
                system_identifier_code := readU16BE ((b2.drop 10).take 16) 2,
                finger_library_size := readU16BE ((b2.drop 10).take 16) 4,
                security_level := readU16BE ((b2.drop 10).take 16) 6,
                device_address := readU32BE ((b2.drop 10).take 16) 8,
                packet_size := readU16BE ((b2.drop 10).take 16) 12,
                baud_setting := readU16BE ((b2.drop 10).take 16) 12 },
            checksum := readU16BE b2 26 }) := by
      simp [parse_reply, h7b, htype2, readSysParaResult_from_payload_eq b2 (by omega), ofDecoded]
    refine ⟨_, _, hp1, hp2, ?_, rfl, rfl⟩
    simp [eqExceptChecksum, haddr, hconf, hf0, hf2, hf4, hf6, hf8, hf12]
  | VfyPwd password =>
    simp only [replyLayoutLen] at hl1 hl2 hagree ⊢
    have h7a : ¬ b1.length < 7 := by omega
    have h7b : ¬ b2.length < 7 := by omega
    have htype2 : readU8 b2 6 = 0x07 := (readU8_congr hagree (by omega)).symm.trans htype
    have haddr : readU32BE b1 2 = readU32BE b2 2 := readU32BE_congr hagree (by omega)
    simp only [statusOk, Option.isSome_iff_exists] at hstatus
    obtain ⟨c, hc⟩ := hstatus
    have hc2 : PasswordVerificationState.fromByte (readU8 b2 9) = some c :=
      (readU8_congr hagree (by omega) : readU8 b1 9 = readU8 b2 9) ▸ hc
    have hp1 : parse_reply (some (Command.VfyPwd password)) b1
        = ParseResult.ok (Reply.VfyPwd
          { address := readU32BE b1 2, confirmation_code := c,
            checksum := readU16BE b1 10 }) := by
      simp [parse_reply, h7a, htype, vfyPwdResult_from_payload_eq b1 (by omega) hc, ofDecoded]
    have hp2 : parse_reply (some (Command.VfyPwd password)) b2
        = ParseResult.ok (Reply.VfyPwd
          { address := readU32BE b2 2, confirmation_code := c,
            checksum := readU16BE b2 10 }) := by
      simp [parse_reply, h7b, htype2, vfyPwdResult_from_payload_eq b2 (by omega) hc2, ofDecoded]
    refine ⟨_, _, hp1, hp2, ?_, rfl, rfl⟩
    simp [eqExceptChecksum, haddr]
  | GenImg =>
    simp only [replyLayoutLen] at hl1 hl2 hagree ⊢
    have h7a : ¬ b1.length < 7 := by omega
    have h7b : ¬ b2.length < 7 := by omega
    have htype2 : readU8 b2 6 = 0x07 := (readU8_congr hagree (by omega)).symm.trans htype
    have haddr : readU32BE b1 2 = readU32BE b2 2 := readU32BE_congr hagree (by omega)
    simp only [statusOk, Option.isSome_iff_exists] at hstatus
    obtain ⟨c, hc⟩ := hstatus
    have hc2 : GenImgStatus.fromByte (readU8 b2 9) = some c :=
      (readU8_congr hagree (by omega) : readU8 b1 9 = readU8 b2 9) ▸ hc
    have hp1 : parse_reply (some (Command.GenImg)) b1
        = ParseResult.ok (Reply.GenImg
          { address := readU32BE b1 2, confirmation_code := c,
            checksum := readU16BE b1 10 }) := by
      simp [parse_reply, h7a, htype, genImgResult_from_payload_eq b1 (by omega) hc, ofDecoded]
    have hp2 : parse_reply (some (Command.GenImg)) b2
        = ParseResult.ok (Reply.GenImg
          { address := readU32BE b2 2, confirmation_code := c,
            checksum := readU16BE b2 10 }) := by
      simp [parse_reply, h7b, htype2, genImgResult_from_payload_eq b2 (by omega) hc2, ofDecoded]
    refine ⟨_, _, hp1, hp2, ?_, rfl, rfl⟩
    simp [eqExceptChecksum, haddr]
  | Img2Tz buffer =>
    simp only [replyLayoutLen] at hl1 hl2 hagree ⊢
    have h7a : ¬ b1.length < 7 := by omega
    have h7b : ¬ b2.length < 7 := by omega
    have htype2 : readU8 b2 6 = 0x07 := (readU8_congr hagree (by omega)).symm.trans htype
    have haddr : readU32BE b1 2 = readU32BE b2 2 := readU32BE_congr hagree (by omega)
    simp only [statusOk, Option.isSome_iff_exists] at hstatus
    obtain ⟨c, hc⟩ := hstatus
    have hc2 : Img2TzStatus.fromByte (readU8 b2 9) = some c :=
      (readU8_congr hagree (by omega) : readU8 b1 9 = readU8 b2 9) ▸ hc
    have hp1 : parse_reply (some (Command.Img2Tz buffer)) b1
        = ParseResult.ok (Reply.Img2Tz
          { address := readU32BE b1 2, confirmation_code := c,
            checksum := readU16BE b1 10 }) := by
      simp [parse_reply, h7a, htype, img2TzResult_from_payload_eq b1 (by omega) hc, ofDecoded]
    have hp2 : parse_reply (some (Command.Img2Tz buffer)) b2
        = ParseResult.ok (Reply.Img2Tz
          { address := readU32BE b2 2, confirmation_code := c,
            checksum := readU16BE b2 10 }) := by
      simp [parse_reply, h7b, htype2, img2TzResult_from_payload_eq b2 (by omega) hc2, ofDecoded]
    refine ⟨_, _, hp1, hp2, ?_, rfl, rfl⟩
    simp [eqExceptChecksum, haddr]
  | Search buffer start_index end_index =>
    simp only [replyLayoutLen] at hl1 hl2 hagree ⊢
    have h7a : ¬ b1.length < 7 := by omega
    have h7b : ¬ b2.length < 7 := by omega
    have htype2 : readU8 b2 6 = 0x07 := (readU8_congr hagree (by omega)).symm.trans htype
    have haddr : readU32BE b1 2 = readU32BE b2 2 := readU32BE_congr hagree (by omega)
    simp only [statusOk, Option.isSome_iff_exists] at hstatus
    obtain ⟨c, hc⟩ := hstatus
    have hc2 : SearchStatus.fromByte (readU8 b2 9) = some c :=
      (readU8_congr hagree (by omega) : readU8 b1 9 = readU8 b2 9) ▸ hc
    have hmid : readU16BE b1 10 = readU16BE b2 10 := readU16BE_congr hagree (by omega)
    have hms : readU16BE b1 12 = readU16BE b2 12 := readU16BE_congr hagree (by omega)
    have hp1 : parse_reply (some (Command.Search buffer start_index end_index)) b1
        = ParseResult.ok (Reply.Search
          { address := readU32BE b1 2, confirmation_code := c,
            match_id := readU16BE b1 10, match_score := readU16BE b1 12,
            checksum := readU16BE b1 14 }) := by
      simp [parse_reply, h7a, htype, searchResult_from_payload_eq b1 (by omega) hc, ofDecoded]
    have hp2 : parse_reply (some (Command.Search buffer start_index end_index)) b2
        = ParseResult.ok (Reply.Search
          { address := readU32BE b2 2, confirmation_code := c,
            match_id := readU16BE b2 10, match_score := readU16BE b2 12,
            checksum := readU16BE b2 14 }) := by
      simp [parse_reply, h7b, htype2, searchResult_from_payload_eq b2 (by omega) hc2, ofDecoded]
    refine ⟨_, _, hp1, hp2, ?_, rfl, rfl⟩
    simp [eqExceptChecksum, haddr, hmid, hms]
  | LoadChar buffer index =>
    simp only [replyLayoutLen] at hl1 hl2 hagree ⊢
    have h7a : ¬ b1.length < 7 := by omega
    have h7b : ¬ b2.length < 7 := by omega
    have htype2 : readU8 b2 6 = 0x07 := (readU8_congr hagree (by omega)).symm.trans htype
    have haddr : readU32BE b1 2 = readU32BE b2 2 := readU32BE_congr hagree (by omega)
    simp only [statusOk, Option.isSome_iff_exists] at hstatus
    obtain ⟨c, hc⟩ := hstatus
    have hc2 : LoadCharStatus.fromByte (readU8 b2 9) = some c :=
      (readU8_congr hagree (by omega) : readU8 b1 9 = readU8 b2 9) ▸ hc
    have hp1 : parse_reply (some (Command.LoadChar buffer index)) b1
        = ParseResult.ok (Reply.LoadChar
          { address := readU32BE b1 2, confirmation_code := c,
            checksum := readU16BE b1 10 }) := by
      simp [parse_reply, h7a, htype, loadCharResult_from_payload_eq b1 (by omega) hc, ofDecoded]
    have hp2 : parse_reply (some (Command.LoadChar buffer index)) b2
        = ParseResult.ok (Reply.LoadChar
          { address := readU32BE b2 2, confirmation_code := c,
            checksum := readU16BE b2 10 }) := by
      simp [parse_reply, h7b, htype2, loadCharResult_from_payload_eq b2 (by omega) hc2, ofDecoded]
    refine ⟨_, _, hp1, hp2, ?_, rfl, rfl⟩
    simp [eqExceptChecksum, haddr]
  | Match =>
    simp only [replyLayoutLen] at hl1 hl2 hagree ⊢
    have h7a : ¬ b1.length < 7 := by omega
    have h7b : ¬ b2.length < 7 := by omega
    have htype2 : readU8 b2 6 = 0x07 := (readU8_congr hagree (by omega)).symm.trans htype
    have haddr : readU32BE b1 2 = readU32BE b2 2 := readU32BE_congr hagree (by omega)
    simp only [statusOk, Option.isSome_iff_exists] at hstatus
    obtain ⟨c, hc⟩ := hstatus
    have hc2 : MatchStatus.fromByte (readU8 b2 9) = some c :=
      (readU8_congr hagree (by omega) : readU8 b1 9 = readU8 b2 9) ▸ hc
    have hms : readU16BE b1 10 = readU16BE b2 10 := readU16BE_congr hagree (by omega)
    have hp1 : parse_reply (some (Command.Match)) b1
        = ParseResult.ok (Reply.Match
          { address := readU32BE b1 2, confirmation_code := c,
            match_score := readU16BE b1 10, checksum := readU16BE b1 12 }) := by
      simp [parse_reply, h7a, htype, matchResult_from_payload_eq b1 (by omega) hc, ofDecoded]
    have hp2 : parse_reply (some (Command.Match)) b2
        = ParseResult.ok (Reply.Match
          { address := readU32BE b2 2, confirmation_code := c,
            match_score := readU16BE b2 10, checksum := readU16BE b2 12 }) := by
      simp [parse_reply, h7b, htype2, matchResult_from_payload_eq b2 (by omega) hc2, ofDecoded]
    refine ⟨_, _, hp1, hp2, ?_, rfl, rfl⟩
    simp [eqExceptChecksum, haddr, hms]
  | TemplateNum =>
    simp only [replyLayoutLen] at hl1 hl2 hagree ⊢
    have h7a : ¬ b1.length < 7 := by omega
    have h7b : ¬ b2.length < 7 := by omega
    have htype2 : readU8 b2 6 = 0x07 := (readU8_congr hagree (by omega)).symm.trans htype
    have haddr : readU32BE b1 2 = readU32BE b2 2 := readU32BE_congr hagree (by omega)
    have hconf : readU8 b1 9 = readU8 b2 9 := readU8_congr hagree (by omega)
    have htn : readU16BE b1 10 = readU16BE b2 10 := readU16BE_congr hagree (by omega)
    have hp1 : parse_reply (some (Command.TemplateNum)) b1
        = ParseResult.ok (Reply.TemplateNum
          { address := readU32BE b1 2, confirmation_code := readU8 b1 9,
            template_num := readU16BE b1 10, checksum := readU16BE b1 12 }) := by
      simp [parse_reply, h7a, htype, templateNumResult_from_payload_eq b1 (by omega), ofDecoded]
    have hp2 : parse_reply (some (Command.TemplateNum)) b2
        = ParseResult.ok (Reply.TemplateNum
          { address := readU32BE b2 2, confirmation_code := readU8 b2 9,
            template_num := readU16BE b2 10, checksum := readU16BE b2 12 }) := by
      simp [parse_reply, h7b, htype2, templateNumResult_from_payload_eq b2 (by omega), ofDecoded]
    refine ⟨_, _, hp1, hp2, ?_, rfl, rfl⟩
    simp [eqExceptChecksum, haddr, hconf, htn]
  | RegModel =>
    simp only [replyLayoutLen] at hl1 hl2 hagree ⊢
    have h7a : ¬ b1.length < 7 := by omega
    have h7b : ¬ b2.length < 7 := by omega
    have htype2 : readU8 b2 6 = 0x07 := (readU8_congr hagree (by omega)).symm.trans htype
    have haddr : readU32BE b1 2 = readU32BE b2 2 := readU32BE_congr hagree (by omega)
    have hconf : readU8 b1 9 = readU8 b2 9 := readU8_congr hagree (by omega)
    have hp1 : parse_reply (some (Command.RegModel)) b1
        = ParseResult.ok (Reply.RegModel
          { address := readU32BE b1 2, confirmation_code := readU8 b1 9,
            checksum := readU16BE b1 10 }) := by
      simp [parse_reply, h7a, htype, regModelResult_from_payload_eq b1 (by omega), ofDecoded]
    have hp2 : parse_reply (some (Command.RegModel)) b2
        = ParseResult.ok (Reply.RegModel
          { address := readU32BE b2 2, confirmation_code := readU8 b2 9,
            checksum := readU16BE b2 10 }) := by
      simp [parse_reply, h7b, htype2, regModelResult_from_payload_eq b2 (by omega), ofDecoded]
    refine ⟨_, _, hp1, hp2, ?_, rfl, rfl⟩
    simp [eqExceptChecksum, haddr, hconf]
  | Store buffer index =>
    simp only [replyLayoutLen] at hl1 hl2 hagree ⊢
    have h7a : ¬ b1.length < 7 := by omega
    have h7b : ¬ b2.length < 7 := by omega
    have htype2 : readU8 b2 6 = 0x07 := (readU8_congr hagree (by omega)).symm.trans htype
    have haddr : readU32BE b1 2 = readU32BE b2 2 := readU32BE_congr hagree (by omega)
    have hconf : readU8 b1 9 = readU8 b2 9 := readU8_congr hagree (by omega)
    have hp1 : parse_reply (some (Command.Store buffer index)) b1
        = ParseResult.ok (Reply.Store
          { address := readU32BE b1 2, confirmation_code := readU8 b1 9,
            checksum := readU16BE b1 10 }) := by
      simp [parse_reply, h7a, htype, storeResult_from_payload_eq b1 (by omega), ofDecoded]
    have hp2 : parse_reply (some (Command.Store buffer index)) b2
        = ParseResult.ok (Reply.Store
          { address := readU32BE b2 2, confirmation_code := readU8 b2 9,
            checksum := readU16BE b2 10 }) := by
      simp [parse_reply, h7b, htype2, storeResult_from_payload_eq b2 (by omega), ofDecoded]
    refine ⟨_, _, hp1, hp2, ?_, rfl, rfl⟩
    simp [eqExceptChecksum, haddr, hconf]
  | DeletChar start_index num_to_delete =>
    simp only [replyLayoutLen] at hl1 hl2 hagree ⊢
    have h7a : ¬ b1.length < 7 := by omega
    have h7b : ¬ b2.length < 7 := by omega
    have htype2 : readU8 b2 6 = 0x07 := (readU8_congr hagree (by omega)).symm.trans htype
    have haddr : readU32BE b1 2 = readU32BE b2 2 := readU32BE_congr hagree (by omega)
    have hconf : readU8 b1 9 = readU8 b2 9 := readU8_congr hagree (by omega)
    have hp1 : parse_reply (some (Command.DeletChar start_index num_to_delete)) b1
        = ParseResult.ok (Reply.DeletChar
          { address := readU32BE b1 2, confirmation_code := readU8 b1 9,
            checksum := readU16BE b1 10 }) := by
      simp [parse_reply, h7a, htype, deletCharResult_from_payload_eq b1 (by omega), ofDecoded]
    have hp2 : parse_reply (some (Command.DeletChar start_index num_to_delete)) b2
        = ParseResult.ok (Reply.DeletChar
          { address := readU32BE b2 2, confirmation_code := readU8 b2 9,
            checksum := readU16BE b2 10 }) := by
      simp [parse_reply, h7b, htype2, deletCharResult_from_payload_eq b2 (by omega), ofDecoded]
    refine ⟨_, _, hp1, hp2, ?_, rfl, rfl⟩
    simp [eqExceptChecksum, haddr, hconf]

/-- Witness for the C8 theorem: the Match-reply test buffer and a copy whose
trailing two checksum bytes are replaced by AB CD. -/
theorem checksum_never_verified_witness :
    ∃ r1 r2, parse_reply (some Command.Match)
        [0xEF, 0x01, 0xFF, 0xFF, 0xFF, 0xFF, 0x07, 0x00, 0x05, 0x00, 0x00, 0x32, 0x00, 0x3E]
        = ParseResult.ok r1
      ∧ parse_reply (some Command.Match)
          [0xEF, 0x01, 0xFF, 0xFF, 0xFF, 0xFF, 0x07, 0x00, 0x05, 0x00, 0x00, 0x32, 0xAB, 0xCD]
          = ParseResult.ok r2
      ∧ eqExceptChecksum r1 r2 = true
      ∧ replyChecksum r1 = readU16BE
          [0xEF, 0x01, 0xFF, 0xFF, 0xFF, 0xFF, 0x07, 0x00, 0x05, 0x00, 0x00, 0x32, 0x00, 0x3E]
          (replyLayoutLen Command.Match - 2)
      ∧ replyChecksum r2 = readU16BE
          [0xEF, 0x01, 0xFF, 0xFF, 0xFF, 0xFF, 0x07, 0x00, 0x05, 0x00, 0x00, 0x32, 0xAB, 0xCD]
          (replyLayoutLen Command.Match - 2) :=
  checksum_never_verified Command.Match
    [0xEF, 0x01, 0xFF, 0xFF, 0xFF, 0xFF, 0x07, 0x00, 0x05, 0x00, 0x00, 0x32, 0x00, 0x3E]
    [0xEF, 0x01, 0xFF, 0xFF, 0xFF, 0xFF, 0x07, 0x00, 0x05, 0x00, 0x00, 0x32, 0xAB, 0xCD]
    (by decide) (by decide) (by decide) (by decide) (by decide)

end R502
